import Mathlib

/-!
Shallow embedding of the TidyBot Army Timeline widget (src/script.js): the
entry store, the type registry, the viewport window calculator, the carousel
renderer's pure HTML builders, and the navigation controller state machine.
DOM reads/writes, CSS transforms and the decorative background generator are
pure visual effects with no state the controller reads back, so they are not
part of the state; the 750 ms animation timer is modelled explicitly as a
pending-timer value whose firing is a separate step.
-/

/-- A raw record as it appears in logs/entries.json. -/
structure RawEntry where
  timestamp : String
  type : String
  title : String
  description : String
  files : List String
  deriving DecidableEq, Repr

/-- An entry of `activityLog` after loading: the raw fields plus the
`id` and `status` fields added by `loadActivityLog` / `addEntry`. -/
structure LogEntry where
  timestamp : String
  type : String
  title : String
  description : String
  files : List String
  id : String
  status : String
  deriving DecidableEq, Repr

/-- JS `String.prototype.padStart(targetLength, '0')` for a single pad char:
if the string is already long enough it is returned unchanged, otherwise it
is left-padded with copies of the pad char up to the target length. -/
def padStart (s : String) (targetLength : Nat) (padChar : Char) : String :=
  if targetLength ≤ s.length then s
  else String.mk (List.replicate (targetLength - s.length) padChar) ++ s

/-- Build the stored entry from a raw one: spread the raw fields and add
`id := String(n).padStart(3, '0')` and `status := 'completed'`, where `n` is
the one-based number the source computes (`index + 1` at load time,
`activityLog.length + 1` in `addEntry`). -/
def withId (e : RawEntry) (n : Nat) : LogEntry :=
  { timestamp := e.timestamp, type := e.type, title := e.title,
    description := e.description, files := e.files,
    id := padStart (toString n) 3 '0', status := "completed" }

/-- JS `Array.prototype.map((entry, index) => ...)` with an explicit running
index, the shape used by `loadActivityLog`. -/
def mapWithIndex (f : Nat → RawEntry → LogEntry) : Nat → List RawEntry → List LogEntry
  | _, [] => []
  | i, e :: es => f i e :: mapWithIndex f (i + 1) es

/-- `loadActivityLog` (script.js lines 11-30). The fetch/parse of
logs/entries.json is represented by its outcome: `some entries` for a
successful retrieval+parse, `none` for any retrieval or parse failure.  On
success each entry gets `id = String(index + 1).padStart(3, '0')` and
`status = 'completed'`; on failure the catch block logs a diagnostic
(`console.error`, the returned Bool) and falls back to the empty array. The
function never throws to its caller: it is total. -/
def loadActivityLog (fetchResult : Option (List RawEntry)) : List LogEntry × Bool :=
  match fetchResult with
  | some entries => (mapWithIndex (fun index e => withId e (index + 1)) 0 entries, false)
  | none => ([], true)

/-- A `(label, color)` record of the type registry. -/
structure TypeStyle where
  label : String
  color : String
  deriving DecidableEq, Repr

/-- `typeConfig` (script.js lines 33-41). A JS property lookup on a key that
is absent yields `undefined`, modelled as `none`. -/
def typeConfig : String → Option TypeStyle
  | "setup" => some { label := "Setup", color := "#9d4edd" }
  | "feature" => some { label := "Feature", color := "#39ff14" }
  | "fix" => some { label := "Bug Fix", color := "#ff3366" }
  | "refactor" => some { label := "Refactor", color := "#ff6b00" }
  | "test" => some { label := "Testing", color := "#00d4ff" }
  | "docs" => some { label := "Docs", color := "#6b6b7b" }
  | "deploy" => some { label := "Deploy", color := "#ff6b00" }
  | _ => none

/-- `createNodeHTML` (script.js lines 134-149). The source dereferences
`typeConfig[entry.type].color` and `.label`; when the registry lookup misses
that dereference throws a TypeError, so the builder is `none` exactly when
the entry's type is not in the registry. `entry.timestamp.split(' ')[0].slice(5)`
is the short date label. -/
def createNodeHTML (entry : LogEntry) (index : Nat) (isActive : Bool) : Option String :=
  match typeConfig entry.type with
  | none => none
  | some cfg =>
    some ("<div class=\"node-wrapper\"><div class=\"timeline-node "
      ++ (if isActive then "active" else "") ++ "\" data-index=\"" ++ toString index
      ++ "\"><div class=\"node-dot\" style=\"--node-color: " ++ cfg.color
      ++ "\"><div class=\"node-pulse\"></div><div class=\"node-core\"></div></div>"
      ++ "<div class=\"node-label\"><span class=\"node-number\">"
      ++ (((entry.timestamp.splitOn " ").headD "").drop 5)
      ++ "</span><span class=\"node-title\">" ++ cfg.label
      ++ "</span></div></div></div>")

/-- `createCardHTML` (script.js lines 152-180). Same lookup discipline as
`createNodeHTML`: a registry miss throws, so the result is `none`. -/
def createCardHTML (entry : LogEntry) (index : Nat)
    (isActive isPrev isNext : Bool) : Option String :=
  match typeConfig entry.type with
  | none => none
  | some cfg =>
    let classes := "event-card" ++ (if isActive then " active" else "")
      ++ (if isPrev then " prev" else "") ++ (if isNext then " next-card" else "")
    some ("<article class=\"" ++ classes ++ "\" data-index=\"" ++ toString index
      ++ "\"><div class=\"corner-bl\"></div><div class=\"event-header\">"
      ++ "<span class=\"event-number\">#" ++ entry.id
      ++ "</span><span class=\"event-date\">" ++ entry.timestamp
      ++ "</span></div><div class=\"event-content\">"
      ++ "<span class=\"event-type\" style=\"--type-color: " ++ cfg.color ++ "\">"
      ++ cfg.label ++ "</span><h2 class=\"event-title\">" ++ entry.title
      ++ "</h2><p class=\"event-description\">" ++ entry.description
      ++ "</p><div class=\"event-files\"><span class=\"files-label\">Files changed</span>"
      ++ "<div class=\"files-list\">"
      ++ String.join (entry.files.map
            (fun f => "<code class=\"file-path\">" ++ f ++ "</code>"))
      ++ "</div></div></div></article>")

/-- `renderedRange = { start, end }` (script.js line 49); `end` is a Lean
keyword so the second field is `end_`. -/
@[ext]
structure RenderedRange where
  start : Int
  end_ : Int
  deriving DecidableEq, Repr

/-- `CARD_BUFFER = 3` (script.js line 44). -/
def CARD_BUFFER : Int := 3

/-- The module-level mutable state the navigation controller reads and
writes: `activityLog`, `currentIndex`, `isAnimating`, `renderedRange`
(script.js lines 8, 47-49). -/
structure TimelineState where
  activityLog : List LogEntry
  currentIndex : Int
  isAnimating : Bool
  renderedRange : RenderedRange
  deriving DecidableEq, Repr

/-- The viewport window calculation inlined at script.js lines 102-103:
`start = Math.max(0, currentIndex - CARD_BUFFER)`,
`end = Math.min(activityLog.length - 1, currentIndex + CARD_BUFFER)`.
This is the spec's `computeRange(currentIndex, bufferSize, entryCount)`. -/
def computeRange (currentIndex bufferSize entryCount : Int) : RenderedRange :=
  { start := max 0 (currentIndex - bufferSize),
    end_ := min (entryCount - 1) (currentIndex + bufferSize) }

/-- `updateRenderedCards(forceRerender)` (script.js lines 101-131): reccompute
the window; if not forced and both bounds equal the previously rendered
range's, only `updateCardActiveStates()` runs (a pure DOM class refresh that
reads no controller state back) and the function returns `false` (did not
re-render); otherwise `renderedRange` is replaced and the strips are
rebuilt wholesale, returning `true`. -/
def updateRenderedCards (s : TimelineState) (forceRerender : Bool) :
    TimelineState × Bool :=
  let r := computeRange s.currentIndex CARD_BUFFER ((s.activityLog.length : Int))
  if forceRerender = false ∧ r.start = s.renderedRange.start
      ∧ r.end_ = s.renderedRange.end_ then
    (s, false)
  else
    ({ s with renderedRange := r }, true)

/-- Which `setTimeout` callback is pending after `goToIndex` starts a
transition: the rendered branch's callback re-runs `updateRenderedCards`
before clearing `isAnimating`; the jump branch's callback only clears it. -/
inductive TimerKind where
  | settleRendered : TimerKind
  | settleJump : TimerKind
  deriving DecidableEq, Repr

/-- A pending `setTimeout(cb, 750)` started by `goToIndex`. -/
structure Timer where
  kind : TimerKind
  duration : Nat
  deriving DecidableEq, Repr

/-- The fixed animation duration: the literal 750 passed to both
`setTimeout` calls in `goToIndex` (script.js lines 265 and 293). -/
def ANIMATION_DURATION : Nat := 750

/-- `goToIndex(index)` (script.js lines 243-295), synchronous part. The guard
rejects the request when `isAnimating` or the index is out of range,
returning the state untouched with no timer. Otherwise `isAnimating` and
`currentIndex` are set; if the target is inside `renderedRange` only DOM
class/transform updates happen before the timer is armed, else
`updateRenderedCards(true)` re-renders immediately and the timer is armed.
Slider transforms and `updateUI` are DOM-only. -/
def goToIndex (s : TimelineState) (index : Int) : TimelineState × Option Timer :=
  if s.isAnimating = true ∨ index < 0 ∨ ((s.activityLog.length : Int)) ≤ index then
    (s, none)
  else
    let s1 : TimelineState := { s with isAnimating := true, currentIndex := index }
    if s1.renderedRange.start ≤ index ∧ index ≤ s1.renderedRange.end_ then
      (s1, some { kind := TimerKind.settleRendered, duration := ANIMATION_DURATION })
    else
      ((updateRenderedCards s1 true).1,
        some { kind := TimerKind.settleJump, duration := ANIMATION_DURATION })

/-- The `setTimeout` callback bodies of `goToIndex`: the rendered branch runs
`updateRenderedCards()` (and a no-animation snap when it re-rendered) then
clears `isAnimating`; the jump branch just clears `isAnimating`. -/
def fireTimer (s : TimelineState) (t : Timer) : TimelineState :=
  match t.kind with
  | TimerKind.settleRendered =>
    { (updateRenderedCards s false).1 with isAnimating := false }
  | TimerKind.settleJump => { s with isAnimating := false }

/-- `goToPrev()` (script.js lines 297-301). -/
def goToPrev (s : TimelineState) : TimelineState × Option Timer :=
  if 0 < s.currentIndex then goToIndex s (s.currentIndex - 1) else (s, none)

/-- `goToNext()` (script.js lines 303-307). -/
def goToNext (s : TimelineState) : TimelineState × Option Timer :=
  if s.currentIndex < (s.activityLog.length : Int) - 1 then
    goToIndex s (s.currentIndex + 1)
  else (s, none)

/-- `goToFirst` of the exported API (script.js line 560). -/
def goToFirst (s : TimelineState) : TimelineState × Option Timer := goToIndex s 0

/-- `goToLast` of the exported API (script.js line 561). -/
def goToLast (s : TimelineState) : TimelineState × Option Timer :=
  goToIndex s ((s.activityLog.length : Int) - 1)

/-- `getCurrentEntry` (script.js line 562): `activityLog[currentIndex]`,
which is `undefined` out of bounds. -/
def getCurrentEntry (s : TimelineState) : Option LogEntry :=
  if 0 ≤ s.currentIndex then s.activityLog.get? s.currentIndex.toNat else none

/-- `getEntryCount` (script.js line 564). -/
def getEntryCount (s : TimelineState) : Nat := s.activityLog.length

/-- `getAllEntries` (script.js line 563). -/
def getAllEntries (s : TimelineState) : List LogEntry := s.activityLog

/-- `addEntry(entry)` (script.js lines 566-572): stamp the entry with
`id = String(activityLog.length + 1).padStart(3, '0')` and
`status = 'completed'`, push it onto the in-memory array (nothing is written
back to logs/entries.json), then `goToIndex(activityLog.length - 1)`. -/
def addEntry (s : TimelineState) (entry : RawEntry) : TimelineState × Option Timer :=
  let newEntry : LogEntry := withId entry (s.activityLog.length + 1)
  let s1 : TimelineState := { s with activityLog := s.activityLog ++ [newEntry] }
  goToIndex s1 ((s1.activityLog.length : Int) - 1)

/-- `reload` (script.js lines 574-581): re-run `loadActivityLog`, point
`currentIndex` at the newest entry, reset `renderedRange` to `{0, 0}` and
force `updateRenderedCards(true)`; `updateUI`/`updateSliderPosition` are
DOM-only. `isAnimating` is not touched. -/
def reload (s : TimelineState) (fetchResult : Option (List RawEntry)) : TimelineState :=
  let log := (loadActivityLog fetchResult).1
  let s1 : TimelineState :=
    { s with activityLog := log, currentIndex := (log.length : Int) - 1,
             renderedRange := { start := 0, end_ := 0 } }
  (updateRenderedCards s1 true).1

/-- `init()` (script.js lines 67-89): start at the newest entry and render;
event binding, mouse tracking and robot positioning are DOM-only. -/
def init (s : TimelineState) : TimelineState :=
  let s1 : TimelineState := { s with currentIndex := (s.activityLog.length : Int) - 1 }
  (updateRenderedCards s1 false).1

/-- The DOMContentLoaded handler (script.js lines 542-555): load the log,
and if it is empty log a warning and return without calling `init()` — the
returned Bool records whether `init` ran (navigation enabled). -/
def startup (fetchResult : Option (List RawEntry)) : TimelineState × Bool :=
  let log := (loadActivityLog fetchResult).1
  let s0 : TimelineState :=
    { activityLog := log, currentIndex := 0, isAnimating := false,
      renderedRange := { start := 0, end_ := 0 } }
  if log.length = 0 then (s0, false) else (init s0, true)

/-- A concrete raw entry used to build sample states. -/
def sampleRaw (k : Nat) : RawEntry :=
  { timestamp := "2024-10-24 09:00", type := "feature",
    title := "Entry " ++ toString k, description := "work item", files := ["a.ts"] }

/-- A 3-entry store as loaded from a successful fetch. -/
def sampleLog3 : List LogEntry :=
  (loadActivityLog (some [sampleRaw 0, sampleRaw 1, sampleRaw 2])).1

/-- An idle 3-entry state sitting at the newest entry with its window
freshly rendered. -/
def sampleState3 : TimelineState :=
  { activityLog := sampleLog3, currentIndex := 2, isAnimating := false,
    renderedRange := computeRange 2 CARD_BUFFER 3 }

/-- A 1-entry idle state at index 0 (both the first and the last index). -/
def sampleState1 : TimelineState :=
  { activityLog := (loadActivityLog (some [sampleRaw 0])).1, currentIndex := 0,
    isAnimating := false, renderedRange := computeRange 0 CARD_BUFFER 1 }

/-- A state marked as mid-transition, as left by a first accepted request. -/
def sampleTransitioning : TimelineState :=
  { activityLog := sampleLog3, currentIndex := 1, isAnimating := true,
    renderedRange := computeRange 1 CARD_BUFFER 3 }

/-- An entry whose category is not in the type registry. -/
def unknownEntry : LogEntry :=
  { timestamp := "2024-10-24 09:00", type := "unknown", title := "X",
    description := "Y", files := ["a.ts"], id := "001", status := "completed" }

/-! ## Helper lemmas -/

/-- `mapWithIndex` preserves length. -/
lemma mapWithIndex_length (f : Nat → RawEntry → LogEntry) (j : Nat)
    (l : List RawEntry) : (mapWithIndex f j l).length = l.length := by
  induction l generalizing j with
  | nil => rfl
  | cons e es ih => simp [mapWithIndex, ih]

/-- Indexing into `mapWithIndex`: the element at `k` is `f` applied at the
running index `j + k`. -/
lemma mapWithIndex_get? (f : Nat → RawEntry → LogEntry) (j k : Nat)
    (l : List RawEntry) :
    (mapWithIndex f j l).get? k = (l.get? k).map (f (j + k)) := by
  induction l generalizing j k with
  | nil => simp [mapWithIndex]
  | cons e es ih =>
    cases k with
    | zero => simp [mapWithIndex]
    | succ k =>
      have h := ih (j + 1) k
      simp only [mapWithIndex, List.get?]
      rw [h]
      have : j + 1 + k = j + (k + 1) := by omega
      rw [this]

/-- `updateRenderedCards` only ever touches `renderedRange`: the log, the
current index and the animation flag pass through unchanged. -/
lemma updateRenderedCards_preserves (s : TimelineState) (f : Bool) :
    (updateRenderedCards s f).1.activityLog = s.activityLog ∧
    (updateRenderedCards s f).1.currentIndex = s.currentIndex ∧
    (updateRenderedCards s f).1.isAnimating = s.isAnimating := by
  simp only [updateRenderedCards]
  split <;> simp

/-- After `updateRenderedCards` the rendered range is exactly the freshly
computed window, whether or not a re-render happened: the skip branch only
fires when the old range already equals the new one. -/
lemma updateRenderedCards_range (s : TimelineState) (f : Bool) :
    (updateRenderedCards s f).1.renderedRange
      = computeRange s.currentIndex CARD_BUFFER ((s.activityLog.length : Int)) := by
  simp only [updateRenderedCards]
  split
  next h =>
    obtain ⟨-, h1, h2⟩ := h
    exact RenderedRange.ext h1.symm h2.symm
  next => rfl

/-- The guard of `goToIndex`: while `isAnimating`, any request returns the
state unchanged with no timer. -/
lemma goToIndex_reject (s : TimelineState) (i : Int) (h : s.isAnimating = true) :
    goToIndex s i = (s, none) := by
  simp only [goToIndex]
  rw [if_pos (Or.inl h)]

/-- `goToIndex` never changes the entry store. -/
lemma goToIndex_activityLog (s : TimelineState) (i : Int) :
    (goToIndex s i).1.activityLog = s.activityLog := by
  simp only [goToIndex]
  split
  next => rfl
  next =>
    split
    next => rfl
    next =>
      exact (updateRenderedCards_preserves
        { s with isAnimating := true, currentIndex := i } true).1

/-- An accepted request (idle controller, in-range target) commits the target
index, raises the animation flag, and arms a timer of the fixed duration. -/
lemma goToIndex_accept (s : TimelineState) (i : Int)
    (h1 : s.isAnimating = false) (h2 : 0 ≤ i)
    (h3 : i < (s.activityLog.length : Int)) :
    (goToIndex s i).1.currentIndex = i ∧
    (goToIndex s i).1.isAnimating = true ∧
    ∃ tm, (goToIndex s i).2 = some tm ∧ tm.duration = ANIMATION_DURATION := by
  simp only [goToIndex]
  rw [if_neg (by simp [h1]; omega)]
  split
  next => exact ⟨rfl, rfl, _, rfl, rfl⟩
  next =>
    refine ⟨?_, ?_, _, rfl, rfl⟩
    · exact (updateRenderedCards_preserves
        { s with isAnimating := true, currentIndex := i } true).2.1
    · exact (updateRenderedCards_preserves
        { s with isAnimating := true, currentIndex := i } true).2.2

/-- An accepted request whose target already lies in the rendered range takes
the rendered branch: the state change is exactly `isAnimating := true`,
`currentIndex := i`. -/
lemma goToIndex_in_range (s : TimelineState) (i : Int)
    (h1 : s.isAnimating = false) (h2 : 0 ≤ i)
    (h3 : i < (s.activityLog.length : Int))
    (h4 : s.renderedRange.start ≤ i) (h5 : i ≤ s.renderedRange.end_) :
    (goToIndex s i).1 = { s with isAnimating := true, currentIndex := i } := by
  simp only [goToIndex]
  rw [if_neg (by simp [h1]; omega), if_pos ⟨h4, h5⟩]

/-! ## Claims -/

/-- C1: for `currentIndex ∈ [0, entryCount-1]`, `bufferSize ≥ 0`,
`entryCount ≥ 1`, the window computation returns
`start = max(0, currentIndex - bufferSize)` and
`end = min(entryCount-1, currentIndex + bufferSize)`, hence
`start ≤ currentIndex ≤ end`, `start ≥ 0`, `end ≤ entryCount-1` and
`end - start ≤ 2*bufferSize`; and this invariant holds of `renderedRange`
immediately after any completed `updateRenderedCards` (with the source's
buffer `CARD_BUFFER`). -/
theorem computeRange_window_invariant (i b n : Int) (s : TimelineState) (f : Bool)
    (hi0 : 0 ≤ i) (hin : i ≤ n - 1) (hb : 0 ≤ b) (hn : 1 ≤ n)
    (hc0 : 0 ≤ s.currentIndex)
    (hcn : s.currentIndex ≤ (s.activityLog.length : Int) - 1) :
    (computeRange i b n).start = max 0 (i - b) ∧
    (computeRange i b n).end_ = min (n - 1) (i + b) ∧
    ((computeRange i b n).start ≤ i ∧ i ≤ (computeRange i b n).end_ ∧
      0 ≤ (computeRange i b n).start ∧ (computeRange i b n).end_ ≤ n - 1 ∧
      (computeRange i b n).end_ - (computeRange i b n).start ≤ 2 * b) ∧
    ((updateRenderedCards s f).1.renderedRange.start ≤ s.currentIndex ∧
      s.currentIndex ≤ (updateRenderedCards s f).1.renderedRange.end_ ∧
      0 ≤ (updateRenderedCards s f).1.renderedRange.start ∧
      (updateRenderedCards s f).1.renderedRange.end_
        ≤ (s.activityLog.length : Int) - 1 ∧
      (updateRenderedCards s f).1.renderedRange.end_
        - (updateRenderedCards s f).1.renderedRange.start ≤ 2 * CARD_BUFFER) := by
  rw [updateRenderedCards_range]
  refine ⟨rfl, rfl, ⟨?_, ?_, ?_, ?_, ?_⟩, ⟨?_, ?_, ?_, ?_, ?_⟩⟩ <;>
    simp only [computeRange, CARD_BUFFER] <;> omega

/-- Witness for C1 at `currentIndex = 2`, `bufferSize = 3`, `entryCount = 3`
and the sample 3-entry state. -/
theorem computeRange_window_invariant_witness :
    (0 : Int) ≤ 2 ∧
    (computeRange 2 3 3).start ≤ 2 ∧ (2 : Int) ≤ (computeRange 2 3 3).end_ ∧
    (updateRenderedCards sampleState3 false).1.renderedRange.start
      ≤ sampleState3.currentIndex := by
  have h := computeRange_window_invariant 2 3 3 sampleState3 false
    (by decide) (by decide) (by decide) (by decide) (by decide) (by decide)
  exact ⟨by decide, h.2.2.1.1, h.2.2.1.2.1, h.2.2.2.1⟩

/-- C2: while `isTransitioning` (`isAnimating`) is true, a second `goToIndex`
request is rejected with no effect: the state — including the `currentIndex`
the first request committed — is returned unchanged and no second timer is
armed. -/
theorem requestGoTo_mutual_exclusion (s : TimelineState) (j k : Int)
    (hidle : s.isAnimating = false) (h0 : 0 ≤ j)
    (hj : j < (s.activityLog.length : Int)) :
    (goToIndex s j).1.currentIndex = j ∧
    (goToIndex s j).1.isAnimating = true ∧
    goToIndex (goToIndex s j).1 k = ((goToIndex s j).1, none) := by
  obtain ⟨h1, h2, -⟩ := goToIndex_accept s j hidle h0 hj
  exact ⟨h1, h2, goToIndex_reject _ k h2⟩

/-- Witness for C2: after `goToIndex 0` on the idle sample state, a second
request is a rejected no-op. -/
theorem requestGoTo_mutual_exclusion_witness :
    sampleState3.isAnimating = false ∧
    (goToIndex sampleState3 0).1.currentIndex = 0 ∧
    goToIndex (goToIndex sampleState3 0).1 1 = ((goToIndex sampleState3 0).1, none) := by
  have h := requestGoTo_mutual_exclusion sampleState3 0 1 rfl (by decide) (by decide)
  exact ⟨rfl, h.1, h.2.2⟩

/-- C3: on a non-empty store, `goToPrev` at index 0 and `goToNext` at index
`entryCount-1` are complete no-ops: the state (current index, rendered range,
animation flag) is unchanged and no timer is armed. -/
theorem boundary_requests_are_noops (s : TimelineState)
    (hne : s.activityLog ≠ []) :
    (s.currentIndex = 0 → goToPrev s = (s, none)) ∧
    (s.currentIndex = (s.activityLog.length : Int) - 1 →
      goToNext s = (s, none)) := by
  constructor
  · intro h
    simp only [goToPrev]
    rw [if_neg (by omega)]
  · intro h
    simp only [goToNext]
    rw [if_neg (by omega)]

/-- Witness for C3 on the 1-entry sample state, where index 0 is both the
first and the last index. -/
theorem boundary_requests_are_noops_witness :
    sampleState1.activityLog ≠ [] ∧
    goToPrev sampleState1 = (sampleState1, none) ∧
    goToNext sampleState1 = (sampleState1, none) := by
  have h := boundary_requests_are_noops sampleState1 (by decide)
  exact ⟨by decide, h.1 rfl, h.2 (by decide)⟩

/-- C4: the window computation is deterministic, and when the freshly
computed range equals the previously rendered one, `updateRenderedCards`
skips re-materialization — the state is untouched and it returns `false`
(only the per-item active/prev/next flag refresh runs). -/
theorem computeRange_deterministic_and_skip (s : TimelineState)
    (i b n i2 b2 n2 : Int) (hi : i = i2) (hb : b = b2) (hn : n = n2)
    (h : s.renderedRange
        = computeRange s.currentIndex CARD_BUFFER ((s.activityLog.length : Int))) :
    computeRange i b n = computeRange i2 b2 n2 ∧
    updateRenderedCards s false = (s, false) := by
  subst hi; subst hb; subst hn
  refine ⟨rfl, ?_⟩
  simp only [updateRenderedCards]
  rw [h]
  simp

/-- Witness for C4 on the sample state whose range is freshly rendered. -/
theorem computeRange_deterministic_and_skip_witness :
    computeRange 2 3 3 = computeRange 2 3 3 ∧
    updateRenderedCards sampleState3 false = (sampleState3, false) := by
  have h := computeRange_deterministic_and_skip sampleState3 2 3 3 2 3 3
    rfl rfl rfl (by decide)
  exact ⟨h.1, h.2⟩

/-- C5: any retrieval or parse failure of the backing resource does not throw
to the caller (the model of `loadActivityLog` is total): the store becomes
the empty list, the `console.error` diagnostic fires (the `true`), and the
DOMContentLoaded sequence sees the zero-length store and returns without
running `init()` — navigation stays disabled instead of crashing. -/
theorem load_failure_soft :
    loadActivityLog none = ([], true) ∧
    (startup none).1.activityLog = [] ∧
    (startup none).2 = false :=
  ⟨rfl, rfl, rfl⟩

/-- Helper for C7: starting from a state whose rendered range is the freshly
computed window for its (last-index) current position, `goToLast` leaves
`currentIndex = entryCount - 1` with a rendered range containing it, whether
the request is accepted or rejected by the animation guard. -/
lemma goToLast_after_fresh (r : TimelineState)
    (hcur : r.currentIndex = (r.activityLog.length : Int) - 1)
    (hlen : 1 ≤ r.activityLog.length)
    (hrr : r.renderedRange
        = computeRange r.currentIndex CARD_BUFFER (r.activityLog.length : Int)) :
    (goToLast r).1.currentIndex = ((goToLast r).1.activityLog.length : Int) - 1 ∧
    (goToLast r).1.renderedRange.start ≤ (goToLast r).1.currentIndex ∧
    (goToLast r).1.currentIndex ≤ (goToLast r).1.renderedRange.end_ := by
  have hidx : ((r.activityLog.length : Int) - 1) = r.currentIndex := hcur.symm
  unfold goToLast
  rw [hidx]
  cases hAn : r.isAnimating with
  | true =>
    rw [goToIndex_reject r _ hAn]
    refine ⟨hcur, ?_, ?_⟩ <;> rw [hrr] <;>
      simp only [computeRange, CARD_BUFFER] <;> omega
  | false =>
    rw [goToIndex_in_range r r.currentIndex hAn (by omega) (by omega)
      (by rw [hrr]; simp only [computeRange, CARD_BUFFER]; omega)
      (by rw [hrr]; simp only [computeRange, CARD_BUFFER]; omega)]
    refine ⟨?_, ?_, ?_⟩ <;> simp only []
    · exact hcur
    · rw [hrr]; simp only [computeRange, CARD_BUFFER]; omega
    · rw [hrr]; simp only [computeRange, CARD_BUFFER]; omega

/-- C7: a successful `reload()` on a non-empty backing resource fully
replaces the store and resets `currentIndex` to `entryCount - 1` (the
newest); the subsequent `goToLast()` leaves `currentIndex = entryCount - 1`
with a rendered range containing that index. -/
theorem reload_goToLast_roundtrip (s : TimelineState) (raw : List RawEntry)
    (hne : raw ≠ []) :
    (reload s (some raw)).activityLog = (loadActivityLog (some raw)).1 ∧
    (reload s (some raw)).currentIndex
      = ((reload s (some raw)).activityLog.length : Int) - 1 ∧
    (goToLast (reload s (some raw))).1.currentIndex
      = ((goToLast (reload s (some raw))).1.activityLog.length : Int) - 1 ∧
    (goToLast (reload s (some raw))).1.renderedRange.start
      ≤ (goToLast (reload s (some raw))).1.currentIndex ∧
    (goToLast (reload s (some raw))).1.currentIndex
      ≤ (goToLast (reload s (some raw))).1.renderedRange.end_ := by
  have hpos : 0 < raw.length := List.length_pos.mpr hne
  set s1 : TimelineState :=
    { s with activityLog := (loadActivityLog (some raw)).1,
             currentIndex := ((loadActivityLog (some raw)).1.length : Int) - 1,
             renderedRange := { start := 0, end_ := 0 } } with hs1
  have hrel : reload s (some raw) = (updateRenderedCards s1 true).1 := rfl
  obtain ⟨hA, hB, -⟩ := updateRenderedCards_preserves s1 true
  have hR := updateRenderedCards_range s1 true
  have hlog : (loadActivityLog (some raw)).1.length = raw.length := by
    simp [loadActivityLog, mapWithIndex_length]
  have hcur : (reload s (some raw)).currentIndex
      = ((reload s (some raw)).activityLog.length : Int) - 1 := by
    rw [hrel, hA, hB]
  have hlen1 : 1 ≤ (reload s (some raw)).activityLog.length := by
    rw [hrel, hA]
    show 1 ≤ (loadActivityLog (some raw)).1.length
    omega
  have hrr : (reload s (some raw)).renderedRange
      = computeRange (reload s (some raw)).currentIndex CARD_BUFFER
          ((reload s (some raw)).activityLog.length : Int) := by
    rw [hrel, hA, hB]
    exact hR
  have hmain := goToLast_after_fresh (reload s (some raw)) hcur hlen1 hrr
  exact ⟨by rw [hrel, hA], hcur, hmain.1, hmain.2.1, hmain.2.2⟩

/-- Witness for C7 on a 2-entry backing resource. -/
theorem reload_goToLast_roundtrip_witness :
    ([sampleRaw 0, sampleRaw 1] : List RawEntry) ≠ [] ∧
    (goToLast (reload sampleState3 (some [sampleRaw 0, sampleRaw 1]))).1.currentIndex
      = ((goToLast (reload sampleState3
          (some [sampleRaw 0, sampleRaw 1]))).1.activityLog.length : Int) - 1 ∧
    (goToLast (reload sampleState3 (some [sampleRaw 0, sampleRaw 1]))).1.renderedRange.start
      ≤ (goToLast (reload sampleState3 (some [sampleRaw 0, sampleRaw 1]))).1.currentIndex := by
  have h := reload_goToLast_roundtrip sampleState3 [sampleRaw 0, sampleRaw 1] (by decide)
  exact ⟨by decide, h.2.2.1, h.2.2.2.1⟩

/-- C6: rendering an entry whose category is missing from the type registry
fails loudly — both HTML builders dereference the lookup result, so a miss
yields no rendered output at all (`none`, the TypeError) instead of a blank
or default label/color; and the registry maps `"feature"` to the label
`"Feature"`. -/
theorem typeRegistry_miss_fails_loudly (e : LogEntry) (i : Nat) (a p nx : Bool)
    (h : typeConfig e.type = none) :
    createNodeHTML e i a = none ∧
    createCardHTML e i a p nx = none ∧
    (typeConfig "feature").map TypeStyle.label = some "Feature" := by
  refine ⟨?_, ?_, rfl⟩
  · simp only [createNodeHTML, h]
  · simp only [createCardHTML, h]

/-- Witness for C6 on an entry with `type = "unknown"`. -/
theorem typeRegistry_miss_fails_loudly_witness :
    typeConfig unknownEntry.type = none ∧
    createNodeHTML unknownEntry 0 true = none ∧
    createCardHTML unknownEntry 0 true false false = none := by
  have h := typeRegistry_miss_fails_loudly unknownEntry 0 true false false rfl
  exact ⟨rfl, h.1, h.2.1⟩

/-- C8 (amended): on an idle controller, `addEntry` appends the stamped entry
to the in-memory store only, so `getEntryCount` grows by one, and navigates
to it, so `getCurrentEntry` is the new entry at the new last index — but the
entry's stored identifier is the one-based padded string
`String(entryCount + 1).padStart(3, '0')`, not the zero-based last index the
claim names. -/
theorem addEntry_appends_and_navigates (s : TimelineState) (e : RawEntry)
    (hidle : s.isAnimating = false) :
    (addEntry s e).1.activityLog
      = s.activityLog ++ [withId e (s.activityLog.length + 1)] ∧
    getEntryCount (addEntry s e).1 = getEntryCount s + 1 ∧
    (addEntry s e).1.currentIndex = (s.activityLog.length : Int) ∧
    getCurrentEntry (addEntry s e).1
      = some (withId e (s.activityLog.length + 1)) := by
  set newE := withId e (s.activityLog.length + 1) with hnew
  set s1 : TimelineState := { s with activityLog := s.activityLog ++ [newE] } with hs1
  have hrel : addEntry s e = goToIndex s1 ((s1.activityLog.length : Int) - 1) := rfl
  have hlen : s1.activityLog.length = s.activityLog.length + 1 := by
    simp [hs1]
  have hlog := goToIndex_activityLog s1 ((s1.activityLog.length : Int) - 1)
  obtain ⟨hci, -, -⟩ := goToIndex_accept s1 ((s1.activityLog.length : Int) - 1)
    hidle (by omega) (by omega)
  have hidx : ((s1.activityLog.length : Int) - 1) = (s.activityLog.length : Int) := by
    rw [hlen]; push_cast; ring
  refine ⟨by rw [hrel, hlog], ?_, by rw [hrel, hci, hidx], ?_⟩
  · simp only [getEntryCount]
    rw [hrel, hlog, hlen]
  · simp only [getCurrentEntry]
    rw [hrel, hci, hlog, hidx]
    rw [if_pos (Int.natCast_nonneg _)]
    rw [Int.toNat_natCast]
    show (s.activityLog ++ [newE]).get? s.activityLog.length = some newE
    exact List.get?_concat_length s.activityLog newE

/-- Witness for C8's amended theorem on the 3-entry sample store. -/
theorem addEntry_appends_and_navigates_witness :
    sampleState3.isAnimating = false ∧
    getEntryCount (addEntry sampleState3 (sampleRaw 3)).1
      = getEntryCount sampleState3 + 1 ∧
    getCurrentEntry (addEntry sampleState3 (sampleRaw 3)).1
      = some (withId (sampleRaw 3) (sampleState3.activityLog.length + 1)) := by
  have h := addEntry_appends_and_navigates sampleState3 (sampleRaw 3) rfl
  exact ⟨rfl, h.2.1, h.2.2.2⟩

/-- Counterexample for C8 as stated: on a 3-entry store the new entry's
stored identifier is `"004"` (one-based, padded), which is neither the new
last index `3` nor its padded rendering `"003"`. -/
theorem addEntry_position_counterexample :
    getEntryCount (addEntry sampleState3 (sampleRaw 3)).1 = 4 ∧
    (addEntry sampleState3 (sampleRaw 3)).1.currentIndex = 3 ∧
    (getCurrentEntry (addEntry sampleState3 (sampleRaw 3)).1).map LogEntry.id
      = some "004" ∧
    ("004" : String) ≠ toString (3 : Nat) ∧
    ("004" : String) ≠ padStart (toString (3 : Nat)) 3 '0' := by
  refine ⟨by decide, by decide, by decide, by decide, by decide⟩

/-- C9 (amended): `loadActivityLog` assigns each entry the stable identifier
`String(index + 1).padStart(3, '0')` — the ONE-based position in source
order, zero-padded to three digits — and that identifier is never rewritten:
navigation leaves the store untouched and `addEntry` only appends. -/
theorem load_assigns_one_based_ids (raw : List RawEntry) (k : Nat)
    (hk : k < raw.length) :
    ((loadActivityLog (some raw)).1.get? k).map LogEntry.id
      = some (padStart (toString (k + 1)) 3 '0') ∧
    (∀ t i, (goToIndex t i).1.activityLog = t.activityLog) ∧
    (∀ t e2, (addEntry t e2).1.activityLog.take t.activityLog.length
        = t.activityLog) := by
  refine ⟨?_, fun t i => goToIndex_activityLog t i, fun t e2 => ?_⟩
  · simp only [loadActivityLog]
    rw [mapWithIndex_get?, List.get?_eq_get hk]
    simp [withId]
  · have h1 : (addEntry t e2).1.activityLog
        = t.activityLog ++ [withId e2 (t.activityLog.length + 1)] := by
      simp only [addEntry]
      rw [goToIndex_activityLog]
    rw [h1, List.take_left]

/-- Witness for C9's amended theorem: the second loaded entry gets id
`"002"`. -/
theorem load_assigns_one_based_ids_witness :
    1 < ([sampleRaw 0, sampleRaw 1] : List RawEntry).length ∧
    ((loadActivityLog (some [sampleRaw 0, sampleRaw 1])).1.get? 1).map LogEntry.id
      = some (padStart (toString (1 + 1)) 3 '0') := by
  have h := load_assigns_one_based_ids [sampleRaw 0, sampleRaw 1] 1 (by decide)
  exact ⟨by decide, h.1⟩

/-- Counterexample for C9 as stated: the first loaded entry (zero-based index
0) has identifier `"001"`, not the zero-based index `0` (nor its padded
rendering `"000"`). -/
theorem load_id_zero_based_counterexample :
    (((loadActivityLog (some [sampleRaw 0])).1.get? 0).map LogEntry.id
      = some "001") ∧
    ("001" : String) ≠ toString (0 : Nat) ∧
    ("001" : String) ≠ padStart (toString (0 : Nat)) 3 '0' := by
  refine ⟨by decide, by decide, by decide⟩

/-- C10: with the controller idle and a non-empty store, `goToIndex` at the
current index (an in-range target) is NOT a no-op: the transitioning flag is
raised, a timer with the fixed 750 ms duration is armed, every further
request is rejected until that timer fires, and firing it clears the flag —
even though the logical position does not change. -/
theorem goToIndex_same_index_not_noop (s : TimelineState)
    (hidle : s.isAnimating = false) (h0 : 0 ≤ s.currentIndex)
    (hlt : s.currentIndex < (s.activityLog.length : Int)) :
    (goToIndex s s.currentIndex).1.isAnimating = true ∧
    (goToIndex s s.currentIndex).1.currentIndex = s.currentIndex ∧
    (∃ tm, (goToIndex s s.currentIndex).2 = some tm
      ∧ tm.duration = ANIMATION_DURATION) ∧
    ANIMATION_DURATION = 750 ∧
    (∀ k, goToIndex (goToIndex s s.currentIndex).1 k
      = ((goToIndex s s.currentIndex).1, none)) ∧
    (∀ tm, (fireTimer (goToIndex s s.currentIndex).1 tm).isAnimating = false) := by
  obtain ⟨h1, h2, tm, h3, h4⟩ := goToIndex_accept s s.currentIndex hidle h0 hlt
  refine ⟨h2, h1, ⟨tm, h3, h4⟩, rfl, fun k => goToIndex_reject _ k h2, fun tm2 => ?_⟩
  cases tm2 with
  | mk kind d => cases kind <;> rfl

/-- Witness for C10 on the idle sample state at its current index 2. -/
theorem goToIndex_same_index_not_noop_witness :
    sampleState3.isAnimating = false ∧
    (goToIndex sampleState3 sampleState3.currentIndex).1.isAnimating = true ∧
    (goToIndex sampleState3 sampleState3.currentIndex).1.currentIndex
      = sampleState3.currentIndex := by
  have h := goToIndex_same_index_not_noop sampleState3 rfl (by decide) (by decide)
  exact ⟨rfl, h.1, h.2.1⟩
